import Mathlib

/-!
Shallow embedding of the lead-qualification pipeline
(FraanW/Lead_Qualification): normalization utilities from
`app/services/utils.py`, the pydantic output schema from `app/schemas.py`,
and the extraction / reconciliation / deduplication logic from
`app/main.py`, together with theorems settling the specification claims.

Python strings are modelled as `String` / `List Char`; Python truthiness of
a string is emptiness; integers are `Int`.
-/

namespace LeadQualification

/-- ASCII whitespace stripped by Python `str.strip()`. -/
def pyIsSpace (c : Char) : Bool :=
  c = ' ' || c = Char.ofNat 9 || c = Char.ofNat 10 || c = Char.ofNat 13 ||
    c = Char.ofNat 11 || c = Char.ofNat 12

/-- Python `str.strip()`: drop whitespace from both ends. -/
def pyStrip (l : List Char) : List Char :=
  ((l.dropWhile pyIsSpace).reverse.dropWhile pyIsSpace).reverse

/-- The single-quote character `'` used by `clean_excel_value` to
neutralize spreadsheet formulas. -/
def squote : Char := Char.ofNat 39

/-- The `{` character. -/
def lbrace : Char := Char.ofNat 123

/-- The `}` character. -/
def rbrace : Char := Char.ofNat 125

/-- Python `s.startswith(('=', '@', '+', '-'))`. -/
def startsDanger : List Char → Bool
  | [] => false
  | c :: _ => c = '=' || c = '@' || c = '+' || c = '-'

/-- `clean_excel_value` from `app/services/utils.py` (duplicated in
`app/main.py`): `None` becomes `""`; otherwise strip, and if the stripped
value starts with `=`, `@`, `+` or `-`, prefix a single quote to force
text interpretation in Excel/CSV. -/
def clean_excel_value (val : Option String) : String :=
  match val with
  | none => ""
  | some v =>
    let s := pyStrip v.toList
    if startsDanger s && decide (0 < s.length) then String.mk (squote :: s)
    else String.mk s

/-- `normalize_phone` from `app/services/utils.py`: remove spaces, dashes,
parentheses and plus signs, then lower-case. -/
def normalize_phone (phone : String) : String :=
  if phone = "" then ""
  else
    String.mk
      ((phone.toList.filter
        (fun c => !(c = ' ' || c = '-' || c = '(' || c = ')' || c = '+'))).map
        Char.toLower)

/-- Python substring containment `p in l` on character lists: `p` occurs
contiguously in `l` (the empty pattern occurs everywhere). -/
def pyIn (p : List Char) : List Char → Bool
  | [] => p.isEmpty
  | c :: rest => p.isPrefixOf (c :: rest) || pyIn p rest

/-- `phones_match` from `app/services/utils.py` (duplicated in
`app/main.py`): falsy inputs never match; otherwise the normalized forms
match when either is a substring of the other. -/
def phones_match (phone1 phone2 : String) : Bool :=
  if phone1 = "" || phone2 = "" then false
  else
    let norm1 := (normalize_phone phone1).toList
    let norm2 := (normalize_phone phone2).toList
    pyIn norm1 norm2 || pyIn norm2 norm1

/-- The `download_results` endpoint (`app/api/endpoints.py`) applies
`df['company_phone'].str.lstrip("'")` to the stored `company_phone`
column before streaming: all leading single quotes are removed. -/
def download_phone_transform (v : String) : String :=
  String.mk (v.toList.dropWhile (fun c => c = squote))

/-- `CompanyDetails` from `app/schemas.py`: every field defaults to `""`
and is a string (never null in practice; the empty string is the
sentinel). -/
structure CompanyDetails where
  phone : String := ""
  email : String := ""
  website : String := ""
  Other : String := ""
deriving DecidableEq

/-- `DecisionMaker` from `app/schemas.py`. -/
structure DecisionMaker where
  name : String := ""
  job_title : String := ""
  mobile_number : String := ""
  contact_number : String := ""
  work_email : String := ""
deriving DecidableEq

/-- The fields actually declared on `LeadOutput` in `app/schemas.py`.
Note: there is NO `contactibility_score` field, and `source` is
`Literal["social", "news", "proximity"]`. -/
structure LeadOutput where
  brand_name : String
  source : String := "news"
  category_main_industry : String := ""
  confidence_score : Int := 0
  enrichment_status : String := "needs apollo"
  company : CompanyDetails := {}
  decision_maker_1 : DecisionMaker := {}
  ai_reason_to_call : String := ""
  notes : String := ""
deriving DecidableEq

/-- Pydantic construction of `LeadOutput`: validates `source` against
`Literal["social", "news", "proximity"]`, `confidence_score` against
`ge=0, le=100`, and `enrichment_status` against
`Literal["enriched", "needs apollo"]`; raises `ValidationError`
(modelled as `Except.error`) when any check fails.  Keyword arguments
that do not correspond to a declared field (the code repeatedly passes
`contactibility_score=...`) are silently ignored by pydantic's default
`extra='ignore'` policy, so they do not appear here. -/
def mkLeadOutput (brand src cat : String) (conf : Int) (status : String)
    (comp : CompanyDetails) (dm1 : DecisionMaker)
    (reason pnotes : String) : Except String LeadOutput :=
  if ¬ (src = "social" ∨ src = "news" ∨ src = "proximity") then
    Except.error "ValidationError: source"
  else if ¬ (0 ≤ conf ∧ conf ≤ 100) then
    Except.error "ValidationError: confidence_score"
  else if ¬ (status = "enriched" ∨ status = "needs apollo") then
    Except.error "ValidationError: enrichment_status"
  else
    Except.ok
      { brand_name := brand, source := src, category_main_industry := cat,
        confidence_score := conf, enrichment_status := status,
        company := comp, decision_maker_1 := dm1,
        ai_reason_to_call := reason, notes := pnotes }

/-- A value in the dictionary produced by `LeadOutput.model_dump()`. -/
inductive DumpValue where
  | str : String → DumpValue
  | int : Int → DumpValue
  | company : CompanyDetails → DumpValue
  | dm : DecisionMaker → DumpValue
deriving DecidableEq

/-- `LeadOutput.model_dump()`: the dictionary holds exactly the fields
declared on the model, keyed by field name. -/
def model_dump (l : LeadOutput) : List (String × DumpValue) :=
  [("brand_name", DumpValue.str l.brand_name),
   ("source", DumpValue.str l.source),
   ("category_main_industry", DumpValue.str l.category_main_industry),
   ("confidence_score", DumpValue.int l.confidence_score),
   ("enrichment_status", DumpValue.str l.enrichment_status),
   ("company", DumpValue.company l.company),
   ("decision_maker_1", DumpValue.dm l.decision_maker_1),
   ("ai_reason_to_call", DumpValue.str l.ai_reason_to_call),
   ("notes", DumpValue.str l.notes)]

/-- Python `dict.get(key)`: `None` when the key is absent. -/
def dictGet (d : List (String × DumpValue)) (k : String) : Option DumpValue :=
  (d.find? (fun p => p.1 = k)).map (fun p => p.2)

/-- `main.py` lines 63-89, the `asyncio.TimeoutError` handler of
`process_row` (the news pipeline): it builds
`LeadOutput(brand_name=.., source="news", category_main_industry="Error",
confidence_score=0, contactibility_score=(30 if website else 0),
enrichment_status="needs apollo", company=.., decision_maker_1=..,
ai_reason_to_call="Timeout - manual review",
notes="Processing took longer than 30s")`.  The
`contactibility_score=...` keyword matches no declared field and is
dropped by pydantic. -/
def process_row_timeout_lead (brand : String) (website : Option String) :
    Except String LeadOutput :=
  mkLeadOutput brand "news" "Error" 0 "needs apollo"
    { phone := "", email := "", website := website.getD "", Other := "" }
    { name := "", job_title := "", mobile_number := "", contact_number := "",
      work_email := "" }
    "Timeout - manual review" "Processing took longer than 30s"

/-- `main.py` lines 569-575, the outermost `except` handler of
`process_business_row`: it builds
`LeadOutput(brand_name=.., source="business", notes=f"Error: {e}")`
with every other field left to its default. -/
def process_business_row_error_fallback (brand err : String) :
    Except String LeadOutput :=
  mkLeadOutput brand "business" "" 0 "needs apollo"
    { phone := "", email := "", website := "", Other := "" }
    { name := "", job_title := "", mobile_number := "", contact_number := "",
      work_email := "" }
    "" ("Error: " ++ err)

/-- `main.py` line 456-463, the timeout handler of `process_business_row`:
`LeadOutput(brand_name=.., source="business",
contactibility_score=(30 if website else 0),
ai_reason_to_call="Timeout during research",
notes="Processing exceeded time limit")`. -/
def process_business_row_timeout_lead (brand : String) :
    Except String LeadOutput :=
  mkLeadOutput brand "business" "" 0 "needs apollo"
    { phone := "", email := "", website := "", Other := "" }
    { name := "", job_title := "", mobile_number := "", contact_number := "",
      work_email := "" }
    "Timeout during research" "Processing exceeded time limit"

/-- `main.py` lines 315-321, the timeout handler of `process_social_row`:
`LeadOutput(brand_name=.., source="social",
ai_reason_to_call="Timeout during research",
notes="Processing exceeded time limit")` — no `contactibility_score`
keyword is even passed, and `confidence_score` defaults to 0. -/
def process_social_row_timeout_lead (brand : String) :
    Except String LeadOutput :=
  mkLeadOutput brand "social" "" 0 "needs apollo"
    { phone := "", email := "", website := "", Other := "" }
    { name := "", job_title := "", mobile_number := "", contact_number := "",
      work_email := "" }
    "Timeout during research" "Processing exceeded time limit"

/-- The literal marker the regex of `process_row` (`main.py` line 100)
requires inside the braces: `"confidence_score"` with its surrounding
double quotes. -/
def markerStr : List Char := "\"confidence_score\"".toList

/-- Helper for the regex truth-condition: somewhere in `l` the marker
occurs, followed (strictly after its end) by a `}` character. -/
def markerThenBrace : List Char → Bool
  | [] => false
  | c :: rest =>
    (markerStr.isPrefixOf (c :: rest) &&
      ((c :: rest).drop markerStr.length).contains rbrace) ||
    markerThenBrace rest

/-- Truth-condition of
`re.search(r'\{.*"confidence_score".*\}', raw, re.DOTALL)` (`main.py`
line 100): a match exists iff the text contains a `{`, later the literal
`"confidence_score"`, and later still a `}`. -/
def hasMarkerCandidate : List Char → Bool
  | [] => false
  | c :: rest => (c = lbrace && markerThenBrace rest) || hasMarkerCandidate rest

/-- The intermediate `data` dictionary of `process_row`
(`main.py` lines 102-133), restricted to the fields the extraction
populates. -/
structure ExtractedData where
  category_main_industry : String
  confidence_score : Int
  reason_to_call : String
  notes : String
  company_phone : String
  company_email : String
  company_website : String
  company_other : String
deriving DecidableEq

/-- The JSON-extraction step of `process_row` (`main.py` lines 96-133).
`parse` abstracts `json.loads` of the regex match plus dictionary
coercion: `some` is a successful strict decode, `none` a decode error
(the `except` branch, `"Schema validation failed"`).  The claims settled
here concern only the no-candidate branch, which consults neither, so the
theorems hold for every `parse`.  When the regex finds no candidate the
code builds the fallback dictionary of lines 107-118 verbatim:
`category_main_industry="Unknown"`, `confidence_score=0`,
`reason_to_call="AI Output Unstructured"`, `notes=raw_output[:500]`,
`company={phone:"", email:"", website: website or "", Other:""}`. -/
def process_row_extract (parse : String → Option ExtractedData)
    (website : Option String) (raw : String) : ExtractedData :=
  if hasMarkerCandidate raw.toList then
    match parse raw with
    | some d => d
    | none =>
      { category_main_industry := "Unknown", confidence_score := 0,
        reason_to_call := "Schema validation failed",
        notes := "Fallback activated due to malformed AI output",
        company_phone := "", company_email := "",
        company_website := website.getD "", company_other := "" }
  else
    { category_main_industry := "Unknown", confidence_score := 0,
      reason_to_call := "AI Output Unstructured",
      notes := String.mk (raw.toList.take 500),
      company_phone := "", company_email := "",
      company_website := website.getD "", company_other := "" }

/-- Python `email.lower().strip()` used by the email comparison of
`process_business_row` (`main.py` line 507). -/
def emailNorm (s : String) : String :=
  String.mk (pyStrip (s.toList.map Char.toLower))

/-- Result of the contact-validation and scoring block of
`process_business_row`. -/
structure ReconcileResult where
  final_phone : String
  final_email : String
  penalty : Int
  base_score : Int
  final_score : Int
deriving DecidableEq

/-- The phone-validation block of `process_business_row` (`main.py`
lines 487-503): result value and penalty contribution.  `final_phone`
starts at `fetched_phone`; both present and matching keeps the fetched
value; both present and non-matching concatenates and contributes 10;
input-only keeps the input. -/
def phone_merge (input_phone fetched_phone : String) : String × Int :=
  if input_phone ≠ "" ∧ fetched_phone ≠ "" then
    if phones_match input_phone fetched_phone then (fetched_phone, 0)
    else (input_phone ++ ", " ++ fetched_phone, 10)
  else if input_phone ≠ "" ∧ fetched_phone = "" then (input_phone, 0)
  else (fetched_phone, 0)

/-- The email-validation block of `process_business_row` (`main.py`
lines 505-517): same structure as the phone block, with lower+strip
equality as the match test. -/
def email_merge (input_email fetched_email : String) : String × Int :=
  if input_email ≠ "" ∧ fetched_email ≠ "" then
    if emailNorm input_email = emailNorm fetched_email then
      (fetched_email, 0)
    else (input_email ++ ", " ++ fetched_email, 10)
  else if input_email ≠ "" ∧ fetched_email = "" then (input_email, 0)
  else (fetched_email, 0)

/-- The base-score ladder of `process_business_row` (`main.py`
lines 526-533): 3→100, 2→60, 1→30, otherwise 0. -/
def base_from_count (n : Nat) : Int :=
  if n = 3 then 100
  else if n = 2 then 60
  else if n = 1 then 30
  else 0

/-- The contact validation, penalty and contactability scoring logic of
`process_business_row` (`main.py` lines 486-538), as a pure function of
the user-supplied phone/email and the engine-fetched (already cleaned)
phone/email/website: the final score is `max(0, base - penalty)`. -/
def reconcile_business (input_phone input_email : String)
    (fetched_phone fetched_email fetched_website : String) :
    ReconcileResult :=
  let phonePair := phone_merge input_phone fetched_phone
  let emailPair := email_merge input_email fetched_email
  let penalty := phonePair.2 + emailPair.2
  let available_count : Nat :=
    (if fetched_website ≠ "" then 1 else 0) +
    (if emailPair.1 ≠ "" then 1 else 0) +
    (if phonePair.1 ≠ "" then 1 else 0)
  let base_score := base_from_count available_count
  { final_phone := phonePair.1, final_email := emailPair.1,
    penalty := penalty, base_score := base_score,
    final_score := max 0 (base_score - penalty) }

/-- `pandas.DataFrame.drop_duplicates(subset=[key], keep='first')`
(`main.py` lines 234, 582, 668): keep a row iff its key value has not
been seen on an earlier row; `seen` accumulates the key values already
kept. -/
def dedup_keep_first_aux {α : Type} (key : α → String) (seen : List String) :
    List α → List α
  | [] => []
  | r :: rs =>
    if key r ∈ seen then dedup_keep_first_aux key seen rs
    else r :: dedup_keep_first_aux key (key r :: seen) rs

/-- Batch deduplication: first occurrence per key wins, order preserved. -/
def dedup_keep_first {α : Type} (key : α → String) (l : List α) : List α :=
  dedup_keep_first_aux key [] l

/-- The contactability table as the spec words it, for comparison
against the code's ladder: base score from the count of non-empty
reconciled values, 3→100, 2→60, 1→30, 0→0. -/
def spec_base_for_count (n : Nat) : Int :=
  if n = 3 then 100
  else if n = 2 then 60
  else if n = 1 then 30
  else 0

/-! ## Supporting lemmas -/

/-- Penalty contribution of the phone block: 10 exactly when both phones
are present and do not match, else 0. -/
theorem phone_merge_penalty (ip fp : String) :
    (phone_merge ip fp).2 =
      if ip ≠ "" ∧ fp ≠ "" ∧ phones_match ip fp = false then 10 else 0 := by
  by_cases h1 : ip = "" <;> by_cases h2 : fp = "" <;>
    by_cases h3 : phones_match ip fp = true <;>
    simp [phone_merge, h1, h2, h3]

/-- Value of the phone block on a both-present mismatch. -/
theorem phone_merge_mismatch {ip fp : String} (h1 : ip ≠ "") (h2 : fp ≠ "")
    (h3 : phones_match ip fp = false) :
    (phone_merge ip fp).1 = ip ++ ", " ++ fp := by
  simp [phone_merge, h1, h2, h3]

/-- Penalty contribution of the email block: 10 exactly when both emails
are present and differ after lower-casing and stripping, else 0. -/
theorem email_merge_penalty (ie fe : String) :
    (email_merge ie fe).2 =
      if ie ≠ "" ∧ fe ≠ "" ∧ emailNorm ie ≠ emailNorm fe then 10 else 0 := by
  by_cases h1 : ie = "" <;> by_cases h2 : fe = "" <;>
    by_cases h3 : emailNorm ie = emailNorm fe <;>
    simp [email_merge, h1, h2, h3]

/-- Value of the email block on a both-present mismatch. -/
theorem email_merge_mismatch {ie fe : String} (h1 : ie ≠ "") (h2 : fe ≠ "")
    (h3 : emailNorm ie ≠ emailNorm fe) :
    (email_merge ie fe).1 = ie ++ ", " ++ fe := by
  simp [email_merge, h1, h2, h3]

/-- The code's three-way presence sum equals the length of the filtered
non-empty list. -/
theorem count_nonempty_eq (a b c : String) :
    ((if a ≠ "" then 1 else 0) + (if b ≠ "" then 1 else 0) +
      (if c ≠ "" then 1 else 0) : Nat) =
      ([a, b, c].filter (fun s => s != "")).length := by
  by_cases ha : a = "" <;> by_cases hb : b = "" <;> by_cases hc : c = "" <;>
    simp [ha, hb, hc]

/-- A list accepted by `startsDanger` is non-empty. -/
theorem startsDanger_pos {l : List Char} (h : startsDanger l = true) :
    0 < l.length := by
  cases l with
  | nil => simp [startsDanger] at h
  | cons c rest => simp

/-! ## Claim theorems -/

/-- C7: `phones_match` is symmetric: for all input strings `a` and `b`,
`phones_match a b = phones_match b a`. -/
theorem C7_phones_match_symm (a b : String) :
    phones_match a b = phones_match b a := by
  by_cases ha : a = "" <;> by_cases hb : b = "" <;>
    simp [phones_match, ha, hb, Bool.or_comm]

/-- C9: `clean_excel_value` prefixes a single quote exactly when the
stripped value begins with `=`, `@`, `+` or `-`, and otherwise returns
the stripped value unchanged. -/
theorem C9_clean_excel_value_guards (v : String) :
    (startsDanger (pyStrip v.toList) = true →
      clean_excel_value (some v) = String.mk (squote :: pyStrip v.toList)) ∧
    (startsDanger (pyStrip v.toList) = false →
      clean_excel_value (some v) = String.mk (pyStrip v.toList)) := by
  constructor <;> intro h
  · have h' : startsDanger (pyStrip v.data) = true := h
    simp only [clean_excel_value, String.toList]
    rw [if_pos (by simp [h', startsDanger_pos h'])]
  · have h' : startsDanger (pyStrip v.data) = false := h
    simp only [clean_excel_value, String.toList]
    rw [if_neg (by simp [h'])]

/-- C9 witness: at `"  =cmd()  "` the stripped value starts with `=` and
is neutralized; at `"abc"` it does not and is returned stripped. -/
theorem C9_clean_excel_value_guards_witness :
    clean_excel_value (some "  =cmd()  ") =
      String.mk (squote :: pyStrip "  =cmd()  ".toList) ∧
    clean_excel_value (some "abc") = String.mk (pyStrip "abc".toList) :=
  ⟨(C9_clean_excel_value_guards "  =cmd()  ").1 (by decide),
   (C9_clean_excel_value_guards "abc").2 (by decide)⟩

/-- C10: for any stored value whose stripped form begins with `+`,
`clean_excel_value` stores it neutralized with a leading single quote,
and the download endpoint's `lstrip("'")` on the `company_phone` column
delivers it with the quote removed — the formula-injection
neutralization does not survive download for that column. -/
theorem C10_download_strips_phone_quote (v : String)
    (h : ∃ rest, pyStrip v.toList = '+' :: rest) :
    clean_excel_value (some v) = String.mk (squote :: pyStrip v.toList) ∧
    download_phone_transform (clean_excel_value (some v)) =
      String.mk (pyStrip v.toList) := by
  obtain ⟨rest, hs⟩ := h
  have hd : startsDanger (pyStrip v.toList) = true := by
    rw [hs]; rfl
  have hc := (C9_clean_excel_value_guards v).1 hd
  refine ⟨hc, ?_⟩
  rw [hc, hs]
  simp only [download_phone_transform, String.toList]
  show String.mk (List.dropWhile _ (squote :: '+' :: rest)) = _
  rw [List.dropWhile_cons_of_pos (by decide),
      List.dropWhile_cons_of_neg (by decide)]

/-- C10 witness: the concrete phone `"+971-50-1234567"` is stored as
`"'+971-50-1234567"` and delivered by the download endpoint as
`"+971-50-1234567"`. -/
theorem C10_download_strips_phone_quote_witness :
    clean_excel_value (some "+971-50-1234567") =
      String.mk (squote :: pyStrip "+971-50-1234567".toList) ∧
    download_phone_transform (clean_excel_value (some "+971-50-1234567")) =
      String.mk (pyStrip "+971-50-1234567".toList) :=
  C10_download_strips_phone_quote "+971-50-1234567"
    ⟨"971-50-1234567".toList, by decide⟩

/-- C1 (code bug): the outermost exception handler of
`process_business_row` builds its fallback with `source="business"`,
which the `LeadOutput` schema (`Literal["social", "news", "proximity"]`)
rejects, so constructing the fallback record itself raises a
`ValidationError` for every brand and every error message — the
exception escapes the per-row handler and aborts the batch `gather`,
contradicting the claimed partial-failure isolation. -/
theorem C1_business_fallback_construction_fails (brand err : String) :
    (process_business_row_error_fallback brand err).isOk = false := by
  simp [process_business_row_error_fallback, mkLeadOutput, Except.isOk,
    Except.toBool]

/-- C2 (code bug): `LeadOutput` declares no `contactibility_score`
field, so for every lead the dictionary produced by `model_dump()` has
no `"contactibility_score"` key: the flattened output row's
`contactibility_score` cell is `None`, not an integer in `[0, 100]`. -/
theorem C2_model_dump_lacks_contactibility (lead : LeadOutput) :
    dictGet (model_dump lead) "contactibility_score" = none := by
  simp [model_dump, dictGet]

/-- C6 (code bug): on timeout the news-pipeline executor constructs its
fallback lead successfully (passing `contactibility_score=30` when a
website was supplied), but the keyword matches no schema field, so the
emitted record — `model_dump()` — carries no `contactibility_score`
at all; the flattened output cell is `None` rather than 30. -/
theorem C6_timeout_record_lacks_contactibility (brand : String)
    (website : Option String) :
    ∃ lead, process_row_timeout_lead brand website = Except.ok lead ∧
      dictGet (model_dump lead) "contactibility_score" = none := by
  refine ⟨{ brand_name := brand, source := "news",
            category_main_industry := "Error", confidence_score := 0,
            enrichment_status := "needs apollo",
            company := { phone := "", email := "",
                         website := website.getD "", Other := "" },
            decision_maker_1 := { name := "", job_title := "",
                                  mobile_number := "", contact_number := "",
                                  work_email := "" },
            ai_reason_to_call := "Timeout - manual review",
            notes := "Processing took longer than 30s" }, ?_, ?_⟩
  · simp [process_row_timeout_lead, mkLeadOutput]
  · simp [model_dump, dictGet]

/-- C3 counterexample: at the claim's own concrete input, the input
phone `"+971-50-1234567"` (normalized `"971501234567"`) and the fetched
phone `"0501234567"` have no substring relation, so `phones_match`
judges them NON-matching, and the final contactibility score is not
100. -/
theorem C3_scenario_counterexample :
    phones_match "+971-50-1234567" "0501234567" ≠ true ∧
    (reconcile_business "+971-50-1234567" "" "0501234567" "info@acme.com"
        "acme.com").final_score ≠ 100 := by
  decide

/-- C3 amended: at the scenario's input the phones are judged
non-matching, a 10-point penalty applies, the final phone is the
concatenation, the final email is `info@acme.com`, and the final
contactibility score is 90. -/
theorem C3_scenario_amended :
    phones_match "+971-50-1234567" "0501234567" = false ∧
    (reconcile_business "+971-50-1234567" "" "0501234567" "info@acme.com"
        "acme.com").final_phone = "+971-50-1234567, 0501234567" ∧
    (reconcile_business "+971-50-1234567" "" "0501234567" "info@acme.com"
        "acme.com").final_email = "info@acme.com" ∧
    (reconcile_business "+971-50-1234567" "" "0501234567" "info@acme.com"
        "acme.com").penalty = 10 ∧
    (reconcile_business "+971-50-1234567" "" "0501234567" "info@acme.com"
        "acme.com").final_score = 90 := by
  decide

/-- Every key of an element kept by `dedup_keep_first_aux` was not in
the incoming `seen` accumulator. -/
theorem dedup_aux_key_not_seen {α : Type} (key : α → String) :
    ∀ {l : List α} {seen : List String} {x : α},
      x ∈ dedup_keep_first_aux key seen l → key x ∉ seen := by
  intro l
  induction l with
  | nil => intro seen x hx; simp [dedup_keep_first_aux] at hx
  | cons r rs ih =>
    intro seen x hx
    by_cases h : key r ∈ seen
    · rw [dedup_keep_first_aux, if_pos h] at hx
      exact ih hx
    · rw [dedup_keep_first_aux, if_neg h] at hx
      rcases List.mem_cons.1 hx with hx | hx
      · subst hx; exact h
      · have := ih hx
        exact fun hmem => this (List.mem_cons_of_mem _ hmem)

/-- The output of `dedup_keep_first_aux` has pairwise-distinct keys. -/
theorem dedup_aux_pairwise {α : Type} (key : α → String) :
    ∀ (l : List α) (seen : List String),
      (dedup_keep_first_aux key seen l).Pairwise
        (fun a b => key a ≠ key b) := by
  intro l
  induction l with
  | nil => intro seen; simp [dedup_keep_first_aux]
  | cons r rs ih =>
    intro seen
    by_cases h : key r ∈ seen
    · rw [dedup_keep_first_aux, if_pos h]; exact ih seen
    · rw [dedup_keep_first_aux, if_neg h]
      refine List.Pairwise.cons ?_ (ih (key r :: seen))
      intro b hb hkey
      exact dedup_aux_key_not_seen key hb (by rw [← hkey]; exact List.mem_cons_self _ _)

/-- Dropping a row whose key was already seen (in an earlier row or in
the accumulator) leaves the deduplicated output unchanged. -/
theorem dedup_aux_drop_dup {α : Type} (key : α → String) (r : α)
    (l₂ : List α) :
    ∀ (l₁ : List α) (seen : List String),
      key r ∈ l₁.map key ∨ key r ∈ seen →
      dedup_keep_first_aux key seen (l₁ ++ r :: l₂) =
        dedup_keep_first_aux key seen (l₁ ++ l₂) := by
  intro l₁
  induction l₁ with
  | nil =>
    intro seen h
    have hr : key r ∈ seen := by simpa using h
    simp only [List.nil_append]
    rw [dedup_keep_first_aux, if_pos hr]
  | cons a l₁' ih =>
    intro seen h
    simp only [List.cons_append]
    by_cases ha : key a ∈ seen
    · rw [dedup_keep_first_aux, if_pos ha, dedup_keep_first_aux, if_pos ha]
      refine ih seen ?_
      rcases h with h | h
      · rw [List.map_cons] at h
        rcases List.mem_cons.1 h with h' | h'
        · exact Or.inr (h' ▸ ha)
        · exact Or.inl h'
      · exact Or.inr h
    · rw [dedup_keep_first_aux, if_neg ha, dedup_keep_first_aux, if_neg ha]
      refine congrArg (a :: ·) (ih (key a :: seen) ?_)
      rcases h with h | h
      · rw [List.map_cons] at h
        rcases List.mem_cons.1 h with h' | h'
        · exact Or.inr (h' ▸ List.mem_cons_self _ _)
        · exact Or.inl h'
      · exact Or.inr (List.mem_cons_of_mem _ h)

/-- C8: batch deduplication keeps the first occurrence per brand key:
adding a row whose key already occurred earlier in the batch leaves the
deduplicated row list unchanged, and the deduplicated output never
contains two rows with the same key. -/
theorem C8_dedup_keep_first_ok {α : Type} (key : α → String)
    (l₁ : List α) (r : α) (l₂ : List α) (h : key r ∈ l₁.map key) :
    dedup_keep_first key (l₁ ++ r :: l₂) = dedup_keep_first key (l₁ ++ l₂) ∧
    (dedup_keep_first key (l₁ ++ r :: l₂)).Pairwise
      (fun a b => key a ≠ key b) :=
  ⟨dedup_aux_drop_dup key r l₂ l₁ [] (Or.inl h),
   dedup_aux_pairwise key (l₁ ++ r :: l₂) []⟩

/-- C8 witness: duplicating the brand `"Acme"` changes nothing and the
output keys are pairwise distinct. -/
theorem C8_dedup_keep_first_ok_witness :
    dedup_keep_first (fun s => s) ["Acme", "Acme", "Beta"] =
      dedup_keep_first (fun s => s) ["Acme", "Beta"] ∧
    (dedup_keep_first (fun s => s) ["Acme", "Acme", "Beta"]).Pairwise
      (fun a b => (fun s => s) a ≠ (fun s => s) b) :=
  C8_dedup_keep_first_ok (fun s => s) ["Acme"] "Acme" ["Beta"] (by decide)

/-- C5: for every raw engine text in which the marker regex
`\{.*"confidence_score".*\}` finds no candidate, the extraction of
`process_row` returns the fallback record: `confidence_score = 0`,
industry (`category_main_industry`) `"Unknown"`,
`reason_to_call = "AI Output Unstructured"`, and `notes` the first 500
characters of the raw text — for any JSON decoder behaviour `parse`
and any input-row website. -/
theorem C5_extract_no_marker_fallback
    (parse : String → Option ExtractedData) (website : Option String)
    (raw : String) (h : hasMarkerCandidate raw.toList = false) :
    process_row_extract parse website raw =
      { category_main_industry := "Unknown", confidence_score := 0,
        reason_to_call := "AI Output Unstructured",
        notes := String.mk (raw.toList.take 500),
        company_phone := "", company_email := "",
        company_website := website.getD "", company_other := "" } := by
  have h' : hasMarkerCandidate raw.data = false := h
  simp only [process_row_extract, String.toList]
  rw [if_neg (by simp [h'])]

/-- C5 witness: the raw text `"I cannot comply"` has no marker-bearing
JSON candidate and extraction yields the documented fallback record. -/
theorem C5_extract_no_marker_fallback_witness :
    hasMarkerCandidate "I cannot comply".toList = false ∧
    process_row_extract (fun _ => none) none "I cannot comply" =
      { category_main_industry := "Unknown", confidence_score := 0,
        reason_to_call := "AI Output Unstructured",
        notes := String.mk ("I cannot comply".toList.take 500),
        company_phone := "", company_email := "",
        company_website := (none : Option String).getD "",
        company_other := "" } :=
  ⟨by decide,
   C5_extract_no_marker_fallback (fun _ => none) none "I cannot comply"
     (by decide)⟩

/-- C4: the business reconciliation behaves as specified: a both-present
non-matching phone yields the concatenation `"input, fetched"`; the
penalty is 10 per both-present mismatch (phone, and trimmed
case-insensitive email); the base score follows the 3→100, 2→60, 1→30,
0→0 table over the count of non-empty reconciled
{website, email, phone}; and the final contactibility score is
`max(0, base - penalty)`. -/
theorem C4_reconcile_business_spec (ip ie fp fe fw : String) :
    ((ip ≠ "" ∧ fp ≠ "" ∧ phones_match ip fp = false) →
      (reconcile_business ip ie fp fe fw).final_phone = ip ++ ", " ++ fp) ∧
    ((ie ≠ "" ∧ fe ≠ "" ∧ emailNorm ie ≠ emailNorm fe) →
      (reconcile_business ip ie fp fe fw).final_email = ie ++ ", " ++ fe) ∧
    (reconcile_business ip ie fp fe fw).penalty =
      (if ip ≠ "" ∧ fp ≠ "" ∧ phones_match ip fp = false then 10 else 0) +
      (if ie ≠ "" ∧ fe ≠ "" ∧ emailNorm ie ≠ emailNorm fe then 10 else 0) ∧
    (reconcile_business ip ie fp fe fw).base_score =
      spec_base_for_count
        (([fw, (reconcile_business ip ie fp fe fw).final_email,
            (reconcile_business ip ie fp fe fw).final_phone].filter
          (fun s => s != "")).length) ∧
    (reconcile_business ip ie fp fe fw).final_score =
      max 0 ((reconcile_business ip ie fp fe fw).base_score -
        (reconcile_business ip ie fp fe fw).penalty) := by
  refine ⟨?_, ?_, ?_, ?_, ?_⟩
  · rintro ⟨h1, h2, h3⟩
    show (phone_merge ip fp).1 = ip ++ ", " ++ fp
    exact phone_merge_mismatch h1 h2 h3
  · rintro ⟨h1, h2, h3⟩
    show (email_merge ie fe).1 = ie ++ ", " ++ fe
    exact email_merge_mismatch h1 h2 h3
  · show (phone_merge ip fp).2 + (email_merge ie fe).2 = _
    rw [phone_merge_penalty, email_merge_penalty]
  · show base_from_count
        ((if fw ≠ "" then 1 else 0) + (if (email_merge ie fe).1 ≠ "" then 1 else 0) +
          (if (phone_merge ip fp).1 ≠ "" then 1 else 0)) = _
    rw [count_nonempty_eq]
    rfl
  · rfl

/-- C4 witness: at the spec's own mismatch scenario — input phone
`"+971501111111"`, fetched phone `"+971502222222"`, no email, no
website — the phones are merged with a 10-point penalty and the final
score is `max(0, 30 - 10) = 20`. -/
theorem C4_reconcile_business_spec_witness :
    (reconcile_business "+971501111111" "" "+971502222222" "" "").final_phone
        = "+971501111111, +971502222222" ∧
    (reconcile_business "+971501111111" "" "+971502222222" "" "").penalty
        = 10 ∧
    (reconcile_business "+971501111111" "" "+971502222222" "" "").final_score
        = max 0 ((reconcile_business "+971501111111" "" "+971502222222" ""
            "").base_score -
          (reconcile_business "+971501111111" "" "+971502222222" ""
            "").penalty) := by
  have h := C4_reconcile_business_spec "+971501111111" "" "+971502222222" "" ""
  refine ⟨h.1 ⟨by decide, by decide, by decide⟩, ?_, h.2.2.2.2⟩
  rw [h.2.2.1]
  decide

end LeadQualification
